import Mathlib

/-!
Shallow embedding of the cinema scheduling / seat-reservation engine.

The embedded functions mirror, branch by branch, the Express handlers:
* `addShowtime` / `editShowtime` from `src/controllers/roomController.ts`
  (the revision at lines 89-439), including the three-way overlap
  classification loop;
* `addReservation` / `deleteReservation` / `editReservation` from the
  reservation controller revision in `unnamed/part_002` (the revision that
  maintains the `available_seats` counter; the older copy in
  `src/controllers/reservationController.ts` omits the counter updates).

Modelling conventions:
* the MySQL store is a record of lists (`DbState`); `SELECT ... WHERE id = ?`
  becomes `List.find?` (first matching row) and `COUNT(*)` becomes the length
  of a `List.filter`;
* auto-increment primary keys are modelled by `next*Id` counters;
* JS numbers from the request body are `Int`; the truthiness test
  `!x` on a numeric field is `x == 0`;
* the JS division in `((showtime_end - showtime_init) / 2) + showtime_init`
  is exact (double) division, modelled in `ℚ`;
* reading an object property that the `SELECT` clause did not produce yields
  JS `undefined`; a `>` comparison against `undefined` is `false`
  (`NaN` comparison), modelled by `jsNumGt` on `Option ℚ`;
* `verifyToken` is an external collaborator: its three observable behaviours
  (throw, non-object payload, object payload with `id`/`role`) are the
  constructors of `Decoded`;
* a thrown exception anywhere inside the `try` block lands in the `catch`
  and produces `serverError errorServidor`; indexing an empty row list
  (`rows[0].field`) throws, hence the `none` branches of row matches;
* `Faults` injects write failures (`affectedRows = 0`) for the two INSERTs
  of `addReservation`, used to examine the (absence of) rollback.
-/

/-- A row of the `rooms` table. -/
structure Room where
  id : Int
  capacity : Int
deriving Repr, DecidableEq

/-- A row of the `movies` table (only the columns the scheduler reads). -/
structure Movie where
  id : Int
  running_time : Int
deriving Repr, DecidableEq

/-- A row of the `showtimes` table. -/
structure Showtime where
  id : Int
  movie_id : Int
  room_id : Int
  showtime_init : Int
  showtime_end : Int
  available_seats : Int
  total_seats : Int
  created_at : Int
deriving Repr, DecidableEq

/-- A row of the `seats` table (one occupancy record). -/
structure Seat where
  id : Int
  showtime_id : Int
  seat_number : Int
deriving Repr, DecidableEq

/-- A row of the `reservations` table. -/
structure Reservation where
  id : Int
  user_id : Int
  showtime_id : Int
  seat_id : Int
  reservation_date : Int
deriving Repr, DecidableEq

/-- The relational store, plus auto-increment counters. -/
structure DbState where
  rooms : List Room
  movies : List Movie
  showtimes : List Showtime
  seats : List Seat
  reservations : List Reservation
  nextShowtimeId : Int
  nextSeatId : Int
  nextReservationId : Int
deriving Repr, DecidableEq

/-- The distinct human-readable messages the handlers emit (identity of the
Spanish string literals in the source; ids interpolated into overlap
messages are carried as arguments). -/
inductive Msg
| tokenNoProporcionado
| soloAdminPeliculas
| soloAdminHorarios
| soloAdminEliminar
| tokenInvalido
| camposObligatorios
| espectaculoNoExiste
| peliculaYaEmpezada
| asientoFueraDeRango
| asientoOcupado
| errorReservarAsiento
| reservaHecha
| errorAnadirEspectaculo
| errorServidor
| timestampInferior
| peliculaNoExiste
| salaNoEncontrada
| peliculaNoEncontrada
| inicioSolapa (id : Int)
| finSolapa (id : Int)
| abarcaCompleto (id : Int)
| espectaculoAnadido
| espectaculoEditado
| errorEditarEspectaculo
| espectaculoIdNoProporcionado
| reservaNoExiste
| usuarioEliminaNoCoincide
| usuarioEditaNoCoincide
| reservaIdNoProporcionado
| errorBaseDatos
| reservaNoEncontradaParaEliminar
| asientoNoEncontradoParaEliminar
| reservaYAsientoEliminados
| showtimeNoEncontradoParaActualizar
| asientoEditado
| asientoNoEncontradoParaEditar
deriving Repr, DecidableEq

/-- The tagged outcome a handler sends: which `send*` helper from
`utils/messages.ts` was called, with which message, and (for `sendOk`)
whether the success payload carries a freshly created id. -/
inductive Outcome
| ok (m : Msg) (idPayload : Option Int)
| badParam (m : Msg)
| unauthorized (m : Msg)
| conflict (m : Msg)
| serverError (m : Msg)
deriving Repr, DecidableEq

/-- Observable behaviour of the external `verifyToken` collaborator. -/
inductive Decoded
| throws
| nonObject
| payload (id : Int) (role : String)
deriving Repr, DecidableEq

/-- JS `a > b` where `a` may be `undefined` (a property absent from the
selected columns): comparison with `undefined` coerces to `NaN` and is
`false`. -/
def jsNumGt : Option ℚ → ℚ → Bool
| none, _ => false
| some a, b => decide (a > b)

/-- The overlap classification of `addShowtime`/`editShowtime`. -/
inductive OverlapKind
| startOverlap
| endOverlap
| fullOverlap
deriving Repr, DecidableEq

/-- The ordered three-way conflict test on a candidate interval
`[ns, ne)` against an existing interval `[es, ee)`, exactly as written in
`roomController.ts` (lines 163-169 and 398-404). -/
def classifyOverlap (ns ne es ee : Int) : Option OverlapKind :=
  if ns ≥ es ∧ ns < ee then some .startOverlap
  else if ne > es ∧ ne ≤ ee then some .endOverlap
  else if ns ≤ es ∧ ne ≥ ee then some .fullOverlap
  else none

/-- The `for` loop over the room's showtimes: first row whose classification
is a conflict, together with its id. -/
def findConflict (ns ne : Int) : List Showtime → Option (Int × OverlapKind)
| [] => none
| st :: rest =>
  match classifyOverlap ns ne st.showtime_init st.showtime_end with
  | some k => some (st.id, k)
  | none => findConflict ns ne rest

/-- Same loop with the `continue` of `editShowtime` that skips the row whose
id equals the edited showtime's id. -/
def findConflictExcluding (selfId ns ne : Int) : List Showtime → Option (Int × OverlapKind)
| [] => none
| st :: rest =>
  if st.id == selfId then findConflictExcluding selfId ns ne rest
  else
    match classifyOverlap ns ne st.showtime_init st.showtime_end with
    | some k => some (st.id, k)
    | none => findConflictExcluding selfId ns ne rest

/-- `POST /api/showtimes/add` (`addShowtime`, roomController.ts 89-203). -/
def addShowtime (s : DbState) (hasToken : Bool) (decoded : Decoded)
    (movie_id room_id showtime_init now : Int) : Outcome × DbState :=
  if !hasToken then (.unauthorized .tokenNoProporcionado, s) else
  match decoded with
  | .throws => (.serverError .errorServidor, s)
  | .nonObject => (.unauthorized .tokenInvalido, s)
  | .payload _uid role =>
    if role != "admin" then (.unauthorized .soloAdminHorarios, s) else
    if movie_id == 0 || room_id == 0 || showtime_init == 0 then
      (.badParam .camposObligatorios, s) else
    let created_at := now
    if created_at ≥ showtime_init then (.conflict .timestampInferior, s) else
    if (s.movies.filter (fun m => m.id == movie_id)).length ≤ 0 then
      (.conflict .peliculaNoExiste, s) else
    match s.rooms.find? (fun r => r.id == room_id) with
    | none => (.badParam .salaNoEncontrada, s)
    | some room =>
      match s.movies.find? (fun m => m.id == movie_id) with
      | none => (.badParam .peliculaNoEncontrada, s)
      | some movie =>
        let capacity := room.capacity
        let running_time := movie.running_time
        let showtime_end := showtime_init + running_time + 1800
        let rows := s.showtimes.filter (fun st => st.room_id == room_id)
        match findConflict showtime_init showtime_end rows with
        | some (cid, .startOverlap) => (.conflict (.inicioSolapa cid), s)
        | some (cid, .endOverlap) => (.conflict (.finSolapa cid), s)
        | some (cid, .fullOverlap) => (.conflict (.abarcaCompleto cid), s)
        | none =>
          let newSt : Showtime :=
            ⟨s.nextShowtimeId, movie_id, room_id, showtime_init, showtime_end,
             capacity, capacity, created_at⟩
          (.ok .espectaculoAnadido none,
           { s with showtimes := s.showtimes ++ [newSt],
                    nextShowtimeId := s.nextShowtimeId + 1 })

/-- `PATCH /api/showtimes/{id}` (`editShowtime`, roomController.ts 308-439). -/
def editShowtime (s : DbState) (hasToken : Bool) (decoded : Decoded)
    (idPresent : Bool) (id : Int) (movie_id room_id showtime_init now : Int) :
    Outcome × DbState :=
  if !hasToken then (.unauthorized .tokenNoProporcionado, s) else
  match decoded with
  | .throws => (.serverError .errorServidor, s)
  | .nonObject => (.unauthorized .tokenInvalido, s)
  | .payload _uid role =>
    if role != "admin" then (.unauthorized .soloAdminHorarios, s) else
    if movie_id == 0 || room_id == 0 || showtime_init == 0 then
      (.badParam .camposObligatorios, s) else
    let created_at := now
    if created_at ≥ showtime_init then (.conflict .timestampInferior, s) else
    if (s.movies.filter (fun m => m.id == movie_id)).length ≤ 0 then
      (.conflict .peliculaNoExiste, s) else
    match s.rooms.find? (fun r => r.id == room_id) with
    | none => (.badParam .salaNoEncontrada, s)
    | some room =>
      if !idPresent then (.badParam .espectaculoIdNoProporcionado, s) else
      match s.showtimes.find? (fun st => st.id == id) with
      | none => (.serverError .errorServidor, s)
      | some edited =>
        let available_seats := edited.available_seats
        match s.movies.find? (fun m => m.id == movie_id) with
        | none => (.badParam .peliculaNoEncontrada, s)
        | some movie =>
          let capacity := room.capacity
          let running_time := movie.running_time
          let showtime_end := showtime_init + running_time + 1800
          let rows := s.showtimes.filter (fun st => st.room_id == room_id)
          match findConflictExcluding id showtime_init showtime_end rows with
          | some (cid, .startOverlap) => (.conflict (.inicioSolapa cid), s)
          | some (cid, .endOverlap) => (.conflict (.finSolapa cid), s)
          | some (cid, .fullOverlap) => (.conflict (.abarcaCompleto cid), s)
          | none =>
            let s1 := { s with showtimes := s.showtimes.map (fun st =>
                          if st.id == id then
                            { st with movie_id := movie_id, room_id := room_id,
                                      showtime_init := showtime_init,
                                      showtime_end := showtime_end,
                                      available_seats := available_seats,
                                      total_seats := capacity,
                                      created_at := created_at }
                          else st) }
            if (s.showtimes.filter (fun st => st.id == id)).length == 0 then
              (.serverError .errorEditarEspectaculo, s1)
            else (.ok .espectaculoEditado none, s1)

/-- The row packet of `SELECT room_id FROM showtimes WHERE id = ?`: only
`room_id` is selected, so the `count` property read by the guard at
reservationController line 78 / part_002 line 79 is absent (`undefined`). -/
structure RoomIdRow where
  room_id : Int
  count : Option ℚ
deriving Repr, DecidableEq

/-- Result rows of `SELECT room_id FROM showtimes WHERE id = ?`. -/
def selectRoomIdRows (s : DbState) (showtime_id : Int) : List RoomIdRow :=
  (s.showtimes.filter (fun st => st.id == showtime_id)).map
    (fun st => ⟨st.room_id, none⟩)

/-- Write-failure injection (`affectedRows = 0`) for the two INSERT
statements of `addReservation`. -/
structure Faults where
  seatInsertFails : Bool
  reservationInsertFails : Bool
deriving Repr, DecidableEq

/-- All writes succeed. -/
def noFaults : Faults := ⟨false, false⟩

/-- `POST /api/reservations/add` (`addReservation`, unnamed/part_002 21-129,
the revision that updates `available_seats`). -/
def addReservation (s : DbState) (hasToken : Bool) (decoded : Decoded)
    (showtime_id seat_number now : Int) (f : Faults) : Outcome × DbState :=
  if !hasToken then (.unauthorized .tokenNoProporcionado, s) else
  match decoded with
  | .throws => (.serverError .errorServidor, s)
  | .nonObject => (.unauthorized .tokenInvalido, s)
  | .payload user_id role =>
    if role == "user" then (.unauthorized .soloAdminPeliculas, s) else
    if showtime_id == 0 || seat_number == 0 then
      (.badParam .camposObligatorios, s) else
    if (s.showtimes.filter (fun st => st.id == showtime_id)).length ≤ 0 then
      (.conflict .espectaculoNoExiste, s) else
    match s.showtimes.find? (fun st => st.id == showtime_id) with
    | none => (.serverError .errorServidor, s)
    | some strow =>
      let reservation_date := now
      let showtime_init := strow.showtime_init
      let showtime_end := strow.showtime_end
      let available_seats := strow.available_seats
      -- `reservation_date >= ((showtime_end - showtime_init) / 2) + showtime_init`
      -- with JS exact division; over integer operands this is
      -- `showtime_end + showtime_init <= 2 * reservation_date`
      -- (see `cutoffInt_iff_cutoffRat` below).
      if showtime_end + showtime_init ≤ 2 * reservation_date then
        (.conflict .peliculaYaEmpezada, s)
      else
        match selectRoomIdRows s showtime_id with
        | [] => (.serverError .errorServidor, s)
        | roomRow :: _ =>
          if jsNumGt roomRow.count 0 then (.conflict .espectaculoNoExiste, s) else
          match s.rooms.find? (fun r => r.id == roomRow.room_id) with
          | none => (.serverError .errorServidor, s)
          | some room =>
            if seat_number > room.capacity || seat_number ≤ 0 then
              (.conflict .asientoFueraDeRango, s) else
            if (s.seats.filter (fun seat => seat.showtime_id == showtime_id &&
                  seat.seat_number == seat_number)).length > 0 then
              (.conflict .asientoOcupado, s)
            else if f.seatInsertFails then (.serverError .errorReservarAsiento, s)
            else
              let newSeat : Seat := ⟨s.nextSeatId, showtime_id, seat_number⟩
              let s1 := { s with seats := s.seats ++ [newSeat],
                                 nextSeatId := s.nextSeatId + 1 }
              match s1.seats.find? (fun seat => seat.showtime_id == showtime_id &&
                      seat.seat_number == seat_number) with
              | none => (.serverError .errorServidor, s1)
              | some seatRow =>
                let seat_id := seatRow.id
                if f.reservationInsertFails then
                  (.serverError .errorAnadirEspectaculo, s1)
                else
                  let newRes : Reservation :=
                    ⟨s1.nextReservationId, user_id, showtime_id, seat_id,
                     reservation_date⟩
                  let s2 := { s1 with
                    reservations := s1.reservations ++ [newRes],
                    nextReservationId := s1.nextReservationId + 1 }
                  let s3 := { s2 with showtimes := s2.showtimes.map (fun st =>
                                if st.id == showtime_id then
                                  { st with available_seats := available_seats - 1 }
                                else st) }
                  (.ok .reservaHecha none, s3)

/-- The source's cutoff test at part_002 lines 68-71:
`reservation_date >= ((showtime_end - showtime_init) / 2) + showtime_init`
with the JS `/` read as exact (double) division. -/
def cutoffRat (showtime_init showtime_end reservation_date : Int) : Prop :=
  ((showtime_end : ℚ) - showtime_init) / 2 + showtime_init ≤ reservation_date

instance (i e now : Int) : Decidable (cutoffRat i e now) := by
  unfold cutoffRat; infer_instance

/-- For integer operands the exact-division cutoff test equals the integer
test used inside `addReservation`. -/
lemma cutoffInt_iff_cutoffRat (i e now : Int) :
    (e + i ≤ 2 * now) ↔ cutoffRat i e now := by
  unfold cutoffRat
  constructor
  · intro h
    have h' : (e : ℚ) + i ≤ 2 * now := by exact_mod_cast h
    linarith
  · intro h
    have h' : (e : ℚ) + i ≤ 2 * now := by linarith
    exact_mod_cast h'

/-- `DELETE /api/reservations/{id}` (`deleteReservation`, unnamed/part_002
144-228, the revision that increments `available_seats`). -/
def deleteReservation (s : DbState) (hasToken : Bool) (decoded : Decoded)
    (idPresent : Bool) (id : Int) : Outcome × DbState :=
  if !hasToken then (.unauthorized .tokenNoProporcionado, s) else
  match decoded with
  | .throws => (.serverError .errorServidor, s)
  | .nonObject => (.unauthorized .tokenInvalido, s)
  | .payload user_id _role =>
    if !idPresent then (.badParam .reservaIdNoProporcionado, s) else
    match s.reservations.find? (fun r => r.id == id) with
    | none => (.conflict .reservaNoExiste, s)
    | some r =>
      if user_id != r.user_id then (.conflict .usuarioEliminaNoCoincide, s) else
      let seat_id := r.seat_id
      let showtime_id := r.showtime_id
      let s1 := { s with reservations :=
                    s.reservations.filter (fun r2 => !(r2.id == id)) }
      if s.reservations.length - s1.reservations.length == 0 then
        (.badParam .reservaNoEncontradaParaEliminar, s1) else
      let s2 := { s1 with seats := s1.seats.filter (fun seat => !(seat.id == seat_id)) }
      if s1.seats.length - s2.seats.length == 0 then
        (.badParam .asientoNoEncontradoParaEliminar, s2) else
      match s2.showtimes.find? (fun st => st.id == showtime_id) with
      | none => (.serverError .showtimeNoEncontradoParaActualizar, s2)
      | some strow =>
        let available_seats := strow.available_seats + 1
        let s3 := { s2 with showtimes := s2.showtimes.map (fun st =>
                      if st.id == showtime_id then
                        { st with available_seats := available_seats }
                      else st) }
        (.ok .reservaYAsientoEliminados none, s3)

/-- `PATCH /api/reservations/{id}` (`editReservation`, unnamed/part_002
246-315). -/
def editReservation (s : DbState) (hasToken : Bool) (decoded : Decoded)
    (idPresent : Bool) (id : Int) (seat_number : Int) : Outcome × DbState :=
  if !hasToken then (.unauthorized .tokenNoProporcionado, s) else
  match decoded with
  | .throws => (.serverError .errorServidor, s)
  | .nonObject => (.unauthorized .tokenInvalido, s)
  | .payload user_id _role =>
    if !idPresent then (.badParam .reservaIdNoProporcionado, s) else
    match s.reservations.find? (fun r => r.id == id) with
    | none => (.conflict .reservaNoExiste, s)
    | some r =>
      if user_id != r.user_id then (.conflict .usuarioEditaNoCoincide, s) else
      let showtime_id := r.showtime_id
      if (s.seats.filter (fun seat => seat.showtime_id == showtime_id &&
            seat.seat_number == seat_number)).length > 0 then
        (.conflict .asientoOcupado, s)
      else
        let seat_id := r.seat_id
        let s1 := { s with seats := s.seats.map (fun seat =>
                      if seat.id == seat_id then
                        { seat with seat_number := seat_number }
                      else seat) }
        if (s.seats.filter (fun seat => seat.id == seat_id)).length == 0 then
          (.badParam .asientoNoEncontradoParaEditar, s1)
        else (.ok .asientoEditado none, s1)

/-- A reservation-manager request: the two operations over which the
capacity-conservation invariant is stated. -/
inductive Op
| reserve (hasToken : Bool) (decoded : Decoded) (showtime_id seat_number now : Int)
| cancel (hasToken : Bool) (decoded : Decoded) (idPresent : Bool) (id : Int)

/-- State effect of one request (all writes succeed). -/
def applyOp (s : DbState) : Op → DbState
| .reserve a b c d e => (addReservation s a b c d e noFaults).2
| .cancel a b c d => (deleteReservation s a b c d).2

/-- State after a sequence of reservation-manager requests. -/
def runOps (s : DbState) : List Op → DbState
| [] => s
| op :: ops => runOps (applyOp s op) ops

/-- Number of active Seat occupancy records for a showtime. -/
def occupancy (s : DbState) (showtime_id : Int) : Nat :=
  s.seats.countP (fun seat => seat.showtime_id == showtime_id)

/-- Outcomes produced by the three overlap-conflict return sites of the
scheduling handlers. -/
def isOverlapConflict : Outcome → Bool
| .conflict (.inicioSolapa _) => true
| .conflict (.finSolapa _) => true
| .conflict (.abarcaCompleto _) => true
| _ => false

/-- A concrete store with one capacity-100 room, one 3600-second movie and
one showtime occupying `[0, 3600)` with all seats free. -/
def baseRoom : Room := ⟨1, 100⟩

/-- The 3600-second movie of the concrete store. -/
def baseMovie : Movie := ⟨1, 3600⟩

/-- The showtime of the concrete store: interval `[0, 3600)`, 100 of 100
seats available. -/
def baseShowtime : Showtime := ⟨1, 1, 1, 0, 3600, 100, 100, 0⟩

/-- The concrete store used to instantiate theorems. -/
def baseState : DbState := ⟨[baseRoom], [baseMovie], [baseShowtime], [], [], 2, 1, 1⟩

/-- Well-formedness of the store: unique primary keys below the
auto-increment counters, each reservation owning exactly one live seat of
its own showtime, and the capacity-conservation equation itself. -/
def DbInv (s : DbState) : Prop :=
  (s.showtimes.map Showtime.id).Nodup ∧
  (s.seats.map Seat.id).Nodup ∧
  (∀ seat ∈ s.seats, seat.id < s.nextSeatId) ∧
  (s.reservations.map Reservation.id).Nodup ∧
  (∀ r ∈ s.reservations, r.id < s.nextReservationId) ∧
  (s.reservations.map Reservation.seat_id).Nodup ∧
  (∀ r ∈ s.reservations, ∃ seat ∈ s.seats,
      seat.id = r.seat_id ∧ seat.showtime_id = r.showtime_id) ∧
  (∀ st ∈ s.showtimes,
      st.available_seats + (occupancy s st.id : Int) = st.total_seats)

/-! ## Helper lemmas -/

/-- Two back-to-back nonempty intervals get no classification. -/
lemma classifyOverlap_eq_none_of_back_to_back (cs ce es ee : Int)
    (hc : cs < ce) (he : es < ee) (hbb : ce = es ∨ cs = ee) :
    classifyOverlap cs ce es ee = none := by
  rcases hbb with h | h <;> unfold classifyOverlap <;>
    split_ifs with h1 h2 h3 <;> first | rfl | omega

/-- The overlap loop reports nothing when no row classifies as a conflict. -/
lemma findConflict_eq_none (ns ne : Int) (rows : List Showtime)
    (h : ∀ st ∈ rows, classifyOverlap ns ne st.showtime_init st.showtime_end = none) :
    findConflict ns ne rows = none := by
  induction rows with
  | nil => rfl
  | cons st rest ih =>
    unfold findConflict
    rw [h st (List.mem_cons_self st rest)]
    exact ih (fun x hx => h x (List.mem_cons_of_mem st hx))

/-! ## Claim theorems -/

/-- Claim C2: for nonempty candidate and existing intervals, the ordered
StartOverlap / EndOverlap / FullOverlap detector used by `addShowtime` and
`editShowtime` reports a conflict iff the generic intersection test
`candidateStart < existingEnd AND candidateEnd > existingStart` holds, and
reports `none` otherwise. -/
theorem overlap_classification_iff_intersection (cs ce es ee : Int)
    (hc : cs < ce) (he : es < ee) :
    (classifyOverlap cs ce es ee ≠ none) ↔ (cs < ee ∧ ce > es) := by
  unfold classifyOverlap
  split_ifs with h1 h2 h3 <;> simp <;> omega

/-- Witness for C2 at the concrete intervals `[0,10)` and `[5,15)`. -/
theorem overlap_classification_iff_intersection_witness :
    (0 : Int) < 10 ∧ (5 : Int) < 15 ∧
    ((classifyOverlap 0 10 5 15 ≠ none) ↔ ((0 : Int) < 15 ∧ (10 : Int) > 5)) :=
  ⟨by decide, by decide,
   overlap_classification_iff_intersection 0 10 5 15 (by decide) (by decide)⟩

/-- Claim C8: back-to-back nonempty intervals (candidate end = existing
start, or candidate start = existing end) classify as `none`, and
`addShowtime` against a room whose existing showtimes are all back-to-back
with the candidate never fails with an overlap conflict. -/
theorem back_to_back_not_conflict (cs ce es ee : Int) (s : DbState)
    (hasToken : Bool) (decoded : Decoded)
    (movie_id room_id showtime_init now : Int)
    (hc : cs < ce) (he : es < ee) (hbb : ce = es ∨ cs = ee)
    (hadj : ∀ movie, s.movies.find? (fun m => m.id == movie_id) = some movie →
      ∀ st ∈ s.showtimes, st.room_id = room_id →
        showtime_init < showtime_init + movie.running_time + 1800 ∧
        st.showtime_init < st.showtime_end ∧
        (showtime_init + movie.running_time + 1800 = st.showtime_init ∨
         showtime_init = st.showtime_end)) :
    classifyOverlap cs ce es ee = none ∧
    isOverlapConflict
      (addShowtime s hasToken decoded movie_id room_id showtime_init now).1 = false := by
  refine ⟨classifyOverlap_eq_none_of_back_to_back cs ce es ee hc he hbb, ?_⟩
  unfold addShowtime
  repeat' first
    | split
    | (dsimp only; split)
  all_goals try rfl
  all_goals (
    rename_i heq
    rw [findConflict_eq_none] at heq
    · simp at heq
    · intro st hst
      rw [List.mem_filter] at hst
      obtain ⟨hmem, hpred⟩ := hst
      have hroom : st.room_id = room_id := by simpa using hpred
      obtain ⟨hcand, hne, hbb'⟩ := hadj _ (by assumption) st hmem hroom
      exact classifyOverlap_eq_none_of_back_to_back _ _ _ _ hcand hne hbb')

/-- Witness for C8: candidate `[3600, 9000)` scheduled right after the
existing `[0, 3600)` showtime of `baseState`; `addShowtime` succeeds. -/
theorem back_to_back_not_conflict_witness :
    (0 : Int) < 10 ∧ (10 : Int) < 20 ∧ ((10 : Int) = 10 ∨ (0 : Int) = 20) ∧
    classifyOverlap 0 10 10 20 = none ∧
    isOverlapConflict
      (addShowtime baseState true (.payload 7 "admin") 1 1 3600 10).1 = false := by
  refine ⟨by decide, by decide, Or.inl rfl, ?_⟩
  exact back_to_back_not_conflict 0 10 10 20 baseState true (.payload 7 "admin")
    1 1 3600 10 (by decide) (by decide) (Or.inl rfl)
    (by
      intro movie hm
      have hmovie : baseMovie = movie := by
        simpa [baseState, baseMovie] using hm
      subst hmovie
      decide)

/-- Claim C4 (code evidence): a request with a valid token whose role claim
is `user` is rejected by `addReservation` with `Unauthorized` (the
copy-pasted admin guard at part_002 lines 36-39), contradicting the spec's
role table for reserveSeat. -/
theorem reserveSeat_user_role_rejected :
    (addReservation baseState true (.payload 7 "user") 1 1 10 noFaults).1
      = .unauthorized .soloAdminPeliculas := by decide

/-- Outcomes that are a `sendConflict` of any message. -/
def isConflict : Outcome → Bool
| .conflict _ => true
| _ => false

/-- Claim C3: once `addReservation` reaches the cutoff check (showtime
exists, required fields present, role accepted), it fails with the
`Conflict` "la película ya está muy empezada" exactly when
`now ≥ start + (end - start) / 2` (exact division, `cutoffRat`). -/
theorem reserveSeat_cutoff_iff (s : DbState) (uid : Int) (role : String)
    (showtime_id seat_number now : Int) (f : Faults) (strow : Showtime)
    (hrole : role ≠ "user") (hst0 : showtime_id ≠ 0) (hseat0 : seat_number ≠ 0)
    (hfind : s.showtimes.find? (fun st => st.id == showtime_id) = some strow) :
    ((addReservation s true (.payload uid role) showtime_id seat_number now f).1
        = .conflict .peliculaYaEmpezada)
      ↔ cutoffRat strow.showtime_init strow.showtime_end now := by
  rw [← cutoffInt_iff_cutoffRat]
  have hmem := List.mem_of_find?_eq_some hfind
  have hsat := List.find?_some hfind
  have hfil : strow ∈ s.showtimes.filter (fun st => st.id == showtime_id) :=
    List.mem_filter.mpr ⟨hmem, hsat⟩
  have hpos : 0 < (s.showtimes.filter (fun st => st.id == showtime_id)).length :=
    List.length_pos.mpr (List.ne_nil_of_mem hfil)
  have h1 : ¬((role == "user") = true) := by simpa using hrole
  have h2 : ¬((showtime_id == 0 || seat_number == 0) = true) := by
    simp only [Bool.or_eq_true, beq_iff_eq]
    rintro (h | h)
    exacts [hst0 h, hseat0 h]
  have h3 : ¬((s.showtimes.filter (fun st => st.id == showtime_id)).length ≤ 0) := by
    omega
  unfold addReservation
  dsimp only
  rw [if_neg h1, if_neg h2, if_neg h3, hfind]
  dsimp only
  by_cases hcut : strow.showtime_end + strow.showtime_init ≤ 2 * now
  · rw [if_pos hcut]
    exact ⟨fun _ => hcut, fun _ => rfl⟩
  · rw [if_neg hcut, iff_false_intro hcut, iff_false]
    intro hbad
    repeat' first
      | (split at hbad)
      | (dsimp only at hbad)
    all_goals simp at hbad
/-- Witness for C3: on the `[0, 3600)` showtime of `baseState` (midpoint
1800), a reservation at `now = 1801` fails with the cutoff conflict and one
at `now = 1799` does not. -/
theorem reserveSeat_cutoff_iff_witness :
    (addReservation baseState true (.payload 7 "admin") 1 5 1801 noFaults).1
      = .conflict .peliculaYaEmpezada ∧
    (addReservation baseState true (.payload 7 "admin") 1 5 1799 noFaults).1
      ≠ .conflict .peliculaYaEmpezada := by
  constructor
  · exact (reserveSeat_cutoff_iff baseState 7 "admin" 1 5 1801 noFaults baseShowtime
      (by decide) (by decide) (by decide) (by decide)).mpr
      ((cutoffInt_iff_cutoffRat 0 3600 1801).mp (by decide))
  · intro hbad
    exact (fun hc => (by decide : ¬((3600 : Int) + 0 ≤ 2 * 1799))
        ((cutoffInt_iff_cutoffRat 0 3600 1799).mpr hc))
      ((reserveSeat_cutoff_iff baseState 7 "admin" 1 5 1799 noFaults baseShowtime
        (by decide) (by decide) (by decide) (by decide)).mp hbad)

/-- Claim C6 (amended): on success `addShowtime` inserts a showtime with
`end = start + movie.running_time + 1800`,
`available_seats = total_seats = room.capacity` and `created_at = now`, and
returns only a success message — the success payload carries no id. -/
theorem createShowtime_success_fields (s : DbState) (hasToken : Bool)
    (decoded : Decoded) (movie_id room_id showtime_init now : Int)
    (m : Msg) (p : Option Int)
    (hok : (addShowtime s hasToken decoded movie_id room_id showtime_init now).1
            = .ok m p) :
    m = .espectaculoAnadido ∧ p = none ∧
    ∃ room movie,
      s.rooms.find? (fun r => r.id == room_id) = some room ∧
      s.movies.find? (fun mv => mv.id == movie_id) = some movie ∧
      (addShowtime s hasToken decoded movie_id room_id showtime_init now).2 =
        { s with
          showtimes := s.showtimes ++
            [⟨s.nextShowtimeId, movie_id, room_id, showtime_init,
              showtime_init + movie.running_time + 1800,
              room.capacity, room.capacity, now⟩],
          nextShowtimeId := s.nextShowtimeId + 1 } := by
  revert hok
  unfold addShowtime
  repeat' first
    | split
    | (dsimp only; split)
  all_goals intro hok
  all_goals try exact Outcome.noConfusion hok
  simp only [Outcome.ok.injEq] at hok
  obtain ⟨hm, hp⟩ := hok
  exact ⟨hm.symm, hp.symm, _, _, by assumption, by assumption, rfl⟩

/-- Witness for C6 (amended): a successful creation over `baseState`. -/
theorem createShowtime_success_fields_witness :
    Msg.espectaculoAnadido = .espectaculoAnadido ∧ (none : Option Int) = none ∧
    ∃ room movie,
      baseState.rooms.find? (fun r => r.id == 1) = some room ∧
      baseState.movies.find? (fun mv => mv.id == 1) = some movie ∧
      (addShowtime baseState true (.payload 7 "admin") 1 1 7200 10).2 =
        { baseState with
          showtimes := baseState.showtimes ++
            [⟨baseState.nextShowtimeId, 1, 1, 7200,
              7200 + movie.running_time + 1800,
              room.capacity, room.capacity, 10⟩],
          nextShowtimeId := baseState.nextShowtimeId + 1 } :=
  createShowtime_success_fields baseState true (.payload 7 "admin") 1 1 7200 10
    .espectaculoAnadido none (by decide)

/-- Counterexample for C6 as stated: the successful creation over
`baseState` answers with the success message only; the payload does not
carry the new showtime id (`baseState.nextShowtimeId = 2`). -/
theorem createShowtime_returns_no_id :
    (addShowtime baseState true (.payload 7 "admin") 1 1 7200 10).1
      = .ok .espectaculoAnadido none ∧
    (addShowtime baseState true (.payload 7 "admin") 1 1 7200 10).1
      ≠ .ok .espectaculoAnadido (some baseState.nextShowtimeId) := by decide

/-- Claim C7 (amended): once `addReservation` reaches the seat-range check,
a `seat_number` above the room capacity or below 1 yields the `Conflict`
"el asiento seleccionado está fuera de rango" — except that
`seat_number = 0` never reaches this check (see the counterexample). -/
theorem reserveSeat_out_of_range_conflict (s : DbState) (uid : Int) (role : String)
    (showtime_id seat_number now : Int) (f : Faults) (strow : Showtime) (room : Room)
    (hrole : role ≠ "user") (hst0 : showtime_id ≠ 0) (hseat0 : seat_number ≠ 0)
    (hfind : s.showtimes.find? (fun st => st.id == showtime_id) = some strow)
    (hcut : ¬ cutoffRat strow.showtime_init strow.showtime_end now)
    (hroom : s.rooms.find? (fun r => r.id == strow.room_id) = some room)
    (hrange : room.capacity < seat_number ∨ seat_number < 1) :
    (addReservation s true (.payload uid role) showtime_id seat_number now f).1
      = .conflict .asientoFueraDeRango := by
  have hmem := List.mem_of_find?_eq_some hfind
  have hsat := List.find?_some hfind
  have hfil : strow ∈ s.showtimes.filter (fun st => st.id == showtime_id) :=
    List.mem_filter.mpr ⟨hmem, hsat⟩
  have h1 : ¬((role == "user") = true) := by simpa using hrole
  have h2 : ¬((showtime_id == 0 || seat_number == 0) = true) := by
    simp only [Bool.or_eq_true, beq_iff_eq]
    rintro (h | h)
    exacts [hst0 h, hseat0 h]
  have h3 : ¬((s.showtimes.filter (fun st => st.id == showtime_id)).length ≤ 0) := by
    have := List.length_pos.mpr (List.ne_nil_of_mem hfil)
    omega
  have hcutInt : ¬(strow.showtime_end + strow.showtime_init ≤ 2 * now) :=
    fun h => hcut ((cutoffInt_iff_cutoffRat _ _ _).mp h)
  have hhead : (s.showtimes.filter (fun st => st.id == showtime_id)).head? = some strow := by
    rw [List.filter_head?]; exact hfind
  obtain ⟨tl, htl⟩ : ∃ tl,
      s.showtimes.filter (fun st => st.id == showtime_id) = strow :: tl := by
    cases hfl : s.showtimes.filter (fun st => st.id == showtime_id) with
    | nil => rw [hfl] at hhead; exact absurd hhead (by simp)
    | cons a t =>
      rw [hfl] at hhead
      simp only [List.head?_cons, Option.some.injEq] at hhead
      exact ⟨t, by rw [hhead]⟩
  have hsel : selectRoomIdRows s showtime_id =
      ⟨strow.room_id, none⟩ :: tl.map (fun st => ⟨st.room_id, none⟩) := by
    unfold selectRoomIdRows
    rw [htl]
    rfl
  have hjs : ¬(jsNumGt (RoomIdRow.mk strow.room_id none).count 0 = true) := by
    simp [jsNumGt]
  have hr : ((decide (seat_number > room.capacity) || decide (seat_number ≤ 0)) = true) := by
    simp only [Bool.or_eq_true, decide_eq_true_eq]
    omega
  unfold addReservation
  dsimp only
  rw [if_neg h1, if_neg h2, if_neg h3, hfind]
  dsimp only
  rw [if_neg hcutInt, hsel]
  dsimp only
  rw [if_neg hjs, hroom]
  dsimp only
  rw [if_pos hr]
  rfl

/-- Witness for C7 (amended): seat 150 against the capacity-100 room of
`baseState` is rejected as out of range. -/
theorem reserveSeat_out_of_range_conflict_witness :
    (addReservation baseState true (.payload 7 "admin") 1 150 10 noFaults).1
      = .conflict .asientoFueraDeRango :=
  reserveSeat_out_of_range_conflict baseState 7 "admin" 1 150 10 noFaults
    baseShowtime baseRoom (by decide) (by decide) (by decide) (by decide)
    (fun hc => (by decide : ¬((3600 : Int) + 0 ≤ 2 * 10))
      ((cutoffInt_iff_cutoffRat 0 3600 10).mpr hc))
    (by decide) (Or.inl (by decide))

/-- Counterexample for C7 as stated: `seat_number = 0` is below 1 but is
falsy in JS, so the required-fields check rejects it with `BadParam`, not
with a `Conflict`. -/
theorem reserveSeat_seat_zero_badparam :
    (addReservation baseState true (.payload 7 "admin") 1 0 10 noFaults).1
      = .badParam .camposObligatorios ∧
    isConflict (addReservation baseState true (.payload 7 "admin") 1 0 10 noFaults).1
      = false := by decide

/-- `baseState` after user 7 reserved seat 5 of showtime 1: the occupancy
record is seat row 1 and reservation row 1 owns it. -/
def reservedState : DbState :=
  ⟨[baseRoom], [baseMovie], [⟨1, 1, 1, 0, 3600, 99, 100, 0⟩],
   [⟨1, 1, 5⟩], [⟨1, 7, 1, 1, 10⟩], 2, 2, 2⟩

/-- Claim C9: `editReservation` performs no seat-range validation: for a
reservation owned by the caller and a new seat number with no occupancy on
that showtime, the reassignment succeeds and writes the new seat number
(whatever its value), and the only `Conflict` outcomes of the handler are
missing reservation, ownership mismatch and occupied seat. -/
theorem reassignSeat_no_range_check (s : DbState) (uid : Int) (role : String)
    (id seat_number : Int) (r : Reservation)
    (hfind : s.reservations.find? (fun r2 => r2.id == id) = some r)
    (howner : uid = r.user_id)
    (hfree : (s.seats.filter (fun seat => seat.showtime_id == r.showtime_id &&
        seat.seat_number == seat_number)).length = 0)
    (hseat : (s.seats.filter (fun seat => seat.id == r.seat_id)).length ≠ 0) :
    ((editReservation s true (.payload uid role) true id seat_number).1
        = .ok .asientoEditado none ∧
     (editReservation s true (.payload uid role) true id seat_number).2.seats
        = s.seats.map (fun seat =>
            if seat.id == r.seat_id then { seat with seat_number := seat_number }
            else seat)) ∧
    ∀ (hasToken : Bool) (decoded : Decoded) (idPresent : Bool) (id2 n2 : Int) (m : Msg),
      (editReservation s hasToken decoded idPresent id2 n2).1 = .conflict m →
      m = .reservaNoExiste ∨ m = .usuarioEditaNoCoincide ∨ m = .asientoOcupado := by
  constructor
  · have howner' : ¬((uid != r.user_id) = true) := by simp [howner]
    have hocc : ¬((s.seats.filter (fun seat => seat.showtime_id == r.showtime_id &&
        seat.seat_number == seat_number)).length > 0) := by omega
    have haff : ¬(((s.seats.filter (fun seat => seat.id == r.seat_id)).length == 0) = true) := by
      simpa using hseat
    have key : editReservation s true (.payload uid role) true id seat_number
        = (.ok .asientoEditado none,
           { s with seats := s.seats.map (fun seat =>
               if seat.id == r.seat_id then { seat with seat_number := seat_number }
               else seat) }) := by
      unfold editReservation
      dsimp only
      rw [hfind]
      dsimp only
      rw [if_neg howner', if_neg hocc, if_neg haff]
      rfl
    rw [key]
    exact ⟨rfl, rfl⟩
  · intro hasToken decoded idPresent id2 n2 m h
    revert h
    unfold editReservation
    repeat' first
      | split
      | (dsimp only; split)
    all_goals intro h
    all_goals try exact Outcome.noConfusion h
    all_goals (injection h with h2; subst h2; simp)

/-- Witness for C9: user 7 reassigns their reservation to seat 999, far
above the room's capacity of 100, and the handler accepts it. -/
theorem reassignSeat_no_range_check_witness :
    ((editReservation reservedState true (.payload 7 "user") true 1 999).1
        = .ok .asientoEditado none ∧
     (editReservation reservedState true (.payload 7 "user") true 1 999).2.seats
        = reservedState.seats.map (fun seat =>
            if seat.id == (1 : Int) then { seat with seat_number := (999 : Int) }
            else seat)) ∧
    ∀ (hasToken : Bool) (decoded : Decoded) (idPresent : Bool) (id2 n2 : Int) (m : Msg),
      (editReservation reservedState hasToken decoded idPresent id2 n2).1 = .conflict m →
      m = .reservaNoExiste ∨ m = .usuarioEditaNoCoincide ∨ m = .asientoOcupado :=
  reassignSeat_no_range_check reservedState 7 "user" 1 999 ⟨1, 7, 1, 1, 10⟩
    (by decide) rfl (by decide) (by decide)

/-- Claim C5 (code evidence): no rollback exists — when the reservation
INSERT fails (`affectedRows = 0`) after the seat INSERT succeeded,
`addReservation` answers `ServerError` and leaves the freshly inserted
seat row in the store, so the failing run changes the stored state. -/
theorem reserveSeat_no_rollback :
    (addReservation baseState true (.payload 7 "admin") 1 5 10 ⟨false, true⟩).1
      = .serverError .errorAnadirEspectaculo ∧
    (addReservation baseState true (.payload 7 "admin") 1 5 10 ⟨false, true⟩).2
      ≠ baseState ∧
    (addReservation baseState true (.payload 7 "admin") 1 5 10 ⟨false, true⟩).2.seats
      = baseState.seats ++ [⟨baseState.nextSeatId, 1, 5⟩] := by decide

/-- The body of `addReservation` with the dead second "showtime does not
exist" branch (part_002 lines 79-81) removed; everything else is
unchanged. -/
def addReservationNoRoomGuard (s : DbState) (hasToken : Bool) (decoded : Decoded)
    (showtime_id seat_number now : Int) (f : Faults) : Outcome × DbState :=
  if !hasToken then (.unauthorized .tokenNoProporcionado, s) else
  match decoded with
  | .throws => (.serverError .errorServidor, s)
  | .nonObject => (.unauthorized .tokenInvalido, s)
  | .payload user_id role =>
    if role == "user" then (.unauthorized .soloAdminPeliculas, s) else
    if showtime_id == 0 || seat_number == 0 then
      (.badParam .camposObligatorios, s) else
    if (s.showtimes.filter (fun st => st.id == showtime_id)).length ≤ 0 then
      (.conflict .espectaculoNoExiste, s) else
    match s.showtimes.find? (fun st => st.id == showtime_id) with
    | none => (.serverError .errorServidor, s)
    | some strow =>
      let reservation_date := now
      let showtime_init := strow.showtime_init
      let showtime_end := strow.showtime_end
      let available_seats := strow.available_seats
      if showtime_end + showtime_init ≤ 2 * reservation_date then
        (.conflict .peliculaYaEmpezada, s)
      else
        match selectRoomIdRows s showtime_id with
        | [] => (.serverError .errorServidor, s)
        | roomRow :: _ =>
          match s.rooms.find? (fun r => r.id == roomRow.room_id) with
          | none => (.serverError .errorServidor, s)
          | some room =>
            if seat_number > room.capacity || seat_number ≤ 0 then
              (.conflict .asientoFueraDeRango, s) else
            if (s.seats.filter (fun seat => seat.showtime_id == showtime_id &&
                  seat.seat_number == seat_number)).length > 0 then
              (.conflict .asientoOcupado, s)
            else if f.seatInsertFails then (.serverError .errorReservarAsiento, s)
            else
              let newSeat : Seat := ⟨s.nextSeatId, showtime_id, seat_number⟩
              let s1 := { s with seats := s.seats ++ [newSeat],
                                 nextSeatId := s.nextSeatId + 1 }
              match s1.seats.find? (fun seat => seat.showtime_id == showtime_id &&
                      seat.seat_number == seat_number) with
              | none => (.serverError .errorServidor, s1)
              | some seatRow =>
                let seat_id := seatRow.id
                if f.reservationInsertFails then
                  (.serverError .errorAnadirEspectaculo, s1)
                else
                  let newRes : Reservation :=
                    ⟨s1.nextReservationId, user_id, showtime_id, seat_id,
                     reservation_date⟩
                  let s2 := { s1 with
                    reservations := s1.reservations ++ [newRes],
                    nextReservationId := s1.nextReservationId + 1 }
                  let s3 := { s2 with showtimes := s2.showtimes.map (fun st =>
                                if st.id == showtime_id then
                                  { st with available_seats := available_seats - 1 }
                                else st) }
                  (.ok .reservaHecha none, s3)

/-- Claim C10: the dead-guard analysis — `addReservation` computes exactly
the same outcome and state as `addReservationNoRoomGuard` on every input,
because the guard `roomRows[0].count > 0` reads a column the SELECT never
produced (`undefined > 0` is false), so the second "showtime does not
exist" branch is never taken and execution always proceeds to the
seat-range check. -/
theorem roomGuard_unreachable (s : DbState) (hasToken : Bool) (decoded : Decoded)
    (showtime_id seat_number now : Int) (f : Faults) :
    addReservation s hasToken decoded showtime_id seat_number now f
      = addReservationNoRoomGuard s hasToken decoded showtime_id seat_number now f := by
  unfold addReservation addReservationNoRoomGuard
  by_cases htok : (!hasToken) = true
  · simp only [if_pos htok]
  · simp only [if_neg htok]
    cases decoded with
    | throws => rfl
    | nonObject => rfl
    | payload uid role =>
      dsimp only
      by_cases hrole : (role == "user") = true
      · simp only [if_pos hrole]
      · simp only [if_neg hrole]
        by_cases hfields : (showtime_id == 0 || seat_number == 0) = true
        · simp only [if_pos hfields]
        · simp only [if_neg hfields]
          by_cases hlen : ((s.showtimes.filter (fun st => st.id == showtime_id)).length ≤ 0)
          · simp only [if_pos hlen]
          · simp only [if_neg hlen]
            cases hfind : s.showtimes.find? (fun st => st.id == showtime_id) with
            | none => rfl
            | some strow =>
              dsimp only
              by_cases hcut : (strow.showtime_end + strow.showtime_init ≤ 2 * now)
              · simp only [if_pos hcut]
              · simp only [if_neg hcut]
                cases hsel : selectRoomIdRows s showtime_id with
                | nil => rfl
                | cons row rest =>
                  have hcount : row.count = none := by
                    have hm : row ∈ selectRoomIdRows s showtime_id := by
                      rw [hsel]; exact List.mem_cons_self _ _
                    unfold selectRoomIdRows at hm
                    obtain ⟨st, _, hrw⟩ := List.mem_map.mp hm
                    rw [← hrw]
                  dsimp only
                  rw [if_neg (by rw [hcount]; simp [jsNumGt] :
                    ¬(jsNumGt row.count 0 = true))]

/-- Appending one element adds its contribution to a count. -/
lemma countP_append_one {α : Type} (l : List α) (a : α) (p : α → Bool) :
    (l ++ [a]).countP p = l.countP p + if p a then 1 else 0 := by
  simp [List.countP_append, List.countP_cons]

/-- The write phase of a successful `addReservation` preserves the store
invariant: the fresh seat raises the occupancy of exactly the reserved
showtime by one while its counter drops by one. -/
lemma dbInv_addReservation_success (s : DbState) (uid stid n rdate : Int)
    (strow : Showtime)
    (h : DbInv s)
    (hfind : s.showtimes.find? (fun st => st.id == stid) = some strow) :
    DbInv
      { rooms := s.rooms, movies := s.movies,
        showtimes := s.showtimes.map (fun st =>
          if st.id == stid then
            { st with available_seats := strow.available_seats - 1 }
          else st),
        seats := s.seats ++ [⟨s.nextSeatId, stid, n⟩],
        reservations := s.reservations ++
          [⟨s.nextReservationId, uid, stid, s.nextSeatId, rdate⟩],
        nextShowtimeId := s.nextShowtimeId,
        nextSeatId := s.nextSeatId + 1,
        nextReservationId := s.nextReservationId + 1 } := by
  obtain ⟨h1, h2, h3, h4, h5, h6, h7, h8⟩ := h
  have hstrow_mem : strow ∈ s.showtimes := List.mem_of_find?_eq_some hfind
  have hstrow_id : strow.id = stid := by simpa using List.find?_some hfind
  refine ⟨?_, ?_, ?_, ?_, ?_, ?_, ?_, ?_⟩
  all_goals dsimp only
  · -- showtime ids unchanged by the map
    have hmapid : (s.showtimes.map (fun st =>
        if st.id == stid then
          { st with available_seats := strow.available_seats - 1 }
        else st)).map Showtime.id = s.showtimes.map Showtime.id := by
      rw [List.map_map]
      apply List.map_congr_left
      intro st _
      dsimp only [Function.comp]
      split <;> rfl
    rw [hmapid]
    exact h1
  · rw [List.map_append, List.nodup_append]
    refine ⟨h2, List.nodup_singleton _, ?_⟩
    intro x hx hmem
    simp only [List.map_cons, List.map_nil, List.mem_singleton] at hmem
    subst hmem
    obtain ⟨seat, hseat, hid⟩ := List.mem_map.mp hx
    exact absurd hid (by have := h3 seat hseat; omega)
  · intro seat hseat
    rcases List.mem_append.mp hseat with hold | hnew
    · have := h3 seat hold; omega
    · simp only [List.mem_singleton] at hnew
      subst hnew
      show s.nextSeatId < s.nextSeatId + 1
      omega
  · rw [List.map_append, List.nodup_append]
    refine ⟨h4, List.nodup_singleton _, ?_⟩
    intro x hx hmem
    simp only [List.map_cons, List.map_nil, List.mem_singleton] at hmem
    subst hmem
    obtain ⟨r, hr, hid⟩ := List.mem_map.mp hx
    exact absurd hid (by have := h5 r hr; omega)
  · intro r hr
    rcases List.mem_append.mp hr with hold | hnew
    · have := h5 r hold; omega
    · simp only [List.mem_singleton] at hnew
      subst hnew
      show s.nextReservationId < s.nextReservationId + 1
      omega
  · rw [List.map_append, List.nodup_append]
    refine ⟨h6, List.nodup_singleton _, ?_⟩
    intro x hx hmem
    simp only [List.map_cons, List.map_nil, List.mem_singleton] at hmem
    subst hmem
    obtain ⟨r, hr, hid⟩ := List.mem_map.mp hx
    obtain ⟨seat, hseat, hsid, _⟩ := h7 r hr
    have := h3 seat hseat
    omega
  · intro r hr
    rcases List.mem_append.mp hr with hold | hnew
    · obtain ⟨seat, hseat, hsid, hshow⟩ := h7 r hold
      exact ⟨seat, List.mem_append_left _ hseat, hsid, hshow⟩
    · simp only [List.mem_singleton] at hnew
      subst hnew
      exact ⟨⟨s.nextSeatId, stid, n⟩,
        List.mem_append_right _ (List.mem_singleton_self _), rfl, rfl⟩
  · intro st hst
    unfold occupancy
    dsimp only
    obtain ⟨orig, horig, rfl⟩ := List.mem_map.mp hst
    rw [countP_append_one]
    by_cases hc : (orig.id == stid) = true
    · have horigid : orig.id = stid := by simpa using hc
      have horig_eq : orig = strow :=
        List.inj_on_of_nodup_map h1 horig hstrow_mem
          (by rw [horigid, hstrow_id])
      rw [if_pos hc]
      have hsid : ((⟨s.nextSeatId, stid, n⟩ : Seat).showtime_id == orig.id) = true := by
        simp [horigid]
      rw [if_pos hsid]
      have hbase := h8 orig horig
      unfold occupancy at hbase
      rw [← horig_eq]
      push_cast
      omega
    · rw [if_neg hc]
      have hne : orig.id ≠ stid := by simpa using hc
      have hsid : ¬(((⟨s.nextSeatId, stid, n⟩ : Seat).showtime_id == orig.id) = true) := by
        simp only [beq_iff_eq]
        show ¬(stid = orig.id)
        omega
      rw [if_neg hsid]
      have hbase := h8 orig horig
      unfold occupancy at hbase
      omega

/-- Every `addReservation` run with succeeding writes preserves the store
invariant. -/
lemma dbInv_addReservation (s : DbState) (hb : Bool) (dec : Decoded)
    (stid n now : Int) (h : DbInv s) :
    DbInv (addReservation s hb dec stid n now noFaults).2 := by
  unfold addReservation
  by_cases htok : (!hb) = true
  · rw [if_pos htok]; exact h
  · rw [if_neg htok]
    cases dec with
    | throws => exact h
    | nonObject => exact h
    | payload uid role =>
      dsimp only
      by_cases hrole : (role == "user") = true
      · rw [if_pos hrole]; exact h
      · rw [if_neg hrole]
        by_cases hfields : (stid == 0 || n == 0) = true
        · rw [if_pos hfields]; exact h
        · rw [if_neg hfields]
          by_cases hlen : ((s.showtimes.filter (fun st => st.id == stid)).length ≤ 0)
          · rw [if_pos hlen]; exact h
          · rw [if_neg hlen]
            cases hfind : s.showtimes.find? (fun st => st.id == stid) with
            | none => exact h
            | some strow =>
              dsimp only
              by_cases hcut : (strow.showtime_end + strow.showtime_init ≤ 2 * now)
              · rw [if_pos hcut]; exact h
              · rw [if_neg hcut]
                cases hsel : selectRoomIdRows s stid with
                | nil => exact h
                | cons row rest =>
                  dsimp only
                  by_cases hguard : (jsNumGt row.count 0 = true)
                  · rw [if_pos hguard]; exact h
                  · rw [if_neg hguard]
                    cases hroom : s.rooms.find? (fun r => r.id == row.room_id) with
                    | none => exact h
                    | some room =>
                      dsimp only
                      by_cases hrange : ((decide (n > room.capacity) || decide (n ≤ 0)) = true)
                      · rw [if_pos hrange]; exact h
                      · rw [if_neg hrange]
                        by_cases hocc : ((s.seats.filter (fun seat =>
                            seat.showtime_id == stid && seat.seat_number == n)).length > 0)
                        · rw [if_pos hocc]; exact h
                        · rw [if_neg hocc]
                          rw [if_neg (by decide : ¬(noFaults.seatInsertFails = true))]
                          have hnil : s.seats.filter (fun seat =>
                              seat.showtime_id == stid && seat.seat_number == n) = [] := by
                            rw [← List.length_eq_zero]
                            omega
                          have hnomatch : s.seats.find? (fun seat =>
                              seat.showtime_id == stid && seat.seat_number == n) = none := by
                            rw [List.find?_eq_none]
                            intro x hx
                            exact (List.filter_eq_nil_iff.mp hnil) x hx
                          have hfseat : (s.seats ++ [(⟨s.nextSeatId, stid, n⟩ : Seat)]).find?
                              (fun seat => seat.showtime_id == stid && seat.seat_number == n)
                              = some ⟨s.nextSeatId, stid, n⟩ := by
                            rw [List.find?_append, hnomatch]
                            simp
                          rw [hfseat]
                          dsimp only
                          rw [if_neg (by decide : ¬(noFaults.reservationInsertFails = true))]
                          exact dbInv_addReservation_success s uid stid n now strow h hfind

/-- Removing the unique element carrying key `v` (under a `Nodup` key list)
subtracts exactly its contribution from any count. -/
lemma countP_filter_ne {α : Type} (f : α → Int) (v : Int) (p : α → Bool) :
    ∀ (l : List α), (l.map f).Nodup → ∀ x ∈ l, f x = v →
    (l.filter (fun a => !(f a == v))).countP p + (if p x then 1 else 0) = l.countP p := by
  intro l
  induction l with
  | nil => intro _ x hx; cases hx
  | cons a t ih =>
    intro hnd x hx hxv
    simp only [List.map_cons, List.nodup_cons] at hnd
    obtain ⟨hna, hndt⟩ := hnd
    rcases List.mem_cons.mp hx with rfl | hxt
    · have hpx : ¬((!(f x == v)) = true) := by simp [hxv]
      have htfilter : t.filter (fun b => !(f b == v)) = t := by
        apply List.filter_eq_self.mpr
        intro b hb
        have hbv : f b ≠ v := by
          intro hbv
          exact hna (by rw [hxv, ← hbv]; exact List.mem_map_of_mem f hb)
        simp [hbv]
      rw [List.filter_cons, if_neg hpx, htfilter, List.countP_cons]
    · have hfa : f a ≠ v := by
        intro hav
        exact hna (by rw [hav, ← hxv]; exact List.mem_map_of_mem f hxt)
      have hpa : ((!(f a == v)) = true) := by simp [hfa]
      rw [List.filter_cons, if_pos hpa, List.countP_cons, List.countP_cons,
        ← ih hndt x hxt hxv]
      ring

/-- The write phase of `deleteReservation` when the showtime row is gone:
the reservation and its seat are removed and no counter is touched; the
invariant survives because the orphaned seat counted for no live showtime. -/
lemma dbInv_deleteReservation_noUpdate (s : DbState) (rid : Int) (r : Reservation)
    (h : DbInv s) (hrmem : r ∈ s.reservations) (hrid : r.id = rid)
    (hnost : ∀ st ∈ s.showtimes, st.id ≠ r.showtime_id) :
    DbInv { s with
      reservations := s.reservations.filter (fun r2 => !(r2.id == rid)),
      seats := s.seats.filter (fun seat => !(seat.id == r.seat_id)) } := by
  obtain ⟨h1, h2, h3, h4, h5, h6, h7, h8⟩ := h
  obtain ⟨seat0, hseat0mem, hseat0id, hseat0show⟩ := h7 r hrmem
  refine ⟨h1, ?_, ?_, ?_, ?_, ?_, ?_, ?_⟩
  all_goals dsimp only
  · exact h2.sublist (List.Sublist.map _ (List.filter_sublist _))
  · intro seat hseat
    exact h3 seat (List.mem_of_mem_filter hseat)
  · exact h4.sublist (List.Sublist.map _ (List.filter_sublist _))
  · intro r2 hr2
    exact h5 r2 (List.mem_of_mem_filter hr2)
  · exact h6.sublist (List.Sublist.map _ (List.filter_sublist _))
  · intro r2 hr2
    have hr2mem := List.mem_of_mem_filter hr2
    have hr2pred := List.of_mem_filter hr2
    have hr2ne : r2 ≠ r := by
      intro heq
      subst heq
      simp [hrid] at hr2pred
    have hsidne : r2.seat_id ≠ r.seat_id := by
      intro heq
      exact hr2ne (List.inj_on_of_nodup_map h6 hr2mem hrmem heq)
    obtain ⟨seat2, hs2mem, hs2id, hs2show⟩ := h7 r2 hr2mem
    refine ⟨seat2, List.mem_filter.mpr ⟨hs2mem, ?_⟩, hs2id, hs2show⟩
    simp only [Bool.not_eq_true', beq_eq_false_iff_ne, ne_eq]
    omega
  · intro st hst
    unfold occupancy
    dsimp only
    have hcnt := countP_filter_ne Seat.id r.seat_id
      (fun seat => seat.showtime_id == st.id) s.seats h2 seat0 hseat0mem hseat0id
    have hp0 : ((fun seat => seat.showtime_id == st.id) seat0) = false := by
      show (seat0.showtime_id == st.id) = false
      refine beq_false_of_ne ?_
      have := hnost st hst
      omega
    rw [hp0] at hcnt
    simp only [Bool.false_eq_true, if_false] at hcnt
    have hbase := h8 st hst
    unfold occupancy at hbase
    omega

/-- The write phase of a fully successful `deleteReservation`: reservation
and seat rows removed, the showtime counter incremented. -/
lemma dbInv_deleteReservation_update (s : DbState) (rid : Int) (r : Reservation)
    (strow : Showtime) (h : DbInv s) (hrmem : r ∈ s.reservations) (hrid : r.id = rid)
    (hsfind : s.showtimes.find? (fun st => st.id == r.showtime_id) = some strow) :
    DbInv { s with
      showtimes := s.showtimes.map (fun st =>
        if st.id == r.showtime_id then
          { st with available_seats := strow.available_seats + 1 }
        else st),
      reservations := s.reservations.filter (fun r2 => !(r2.id == rid)),
      seats := s.seats.filter (fun seat => !(seat.id == r.seat_id)) } := by
  obtain ⟨h1, h2, h3, h4, h5, h6, h7, h8⟩ := h
  obtain ⟨seat0, hseat0mem, hseat0id, hseat0show⟩ := h7 r hrmem
  have hstrow_mem : strow ∈ s.showtimes := List.mem_of_find?_eq_some hsfind
  have hstrow_id : strow.id = r.showtime_id := by simpa using List.find?_some hsfind
  refine ⟨?_, ?_, ?_, ?_, ?_, ?_, ?_, ?_⟩
  all_goals dsimp only
  · have hmapid : (s.showtimes.map (fun st =>
        if st.id == r.showtime_id then
          { st with available_seats := strow.available_seats + 1 }
        else st)).map Showtime.id = s.showtimes.map Showtime.id := by
      rw [List.map_map]
      apply List.map_congr_left
      intro st _
      dsimp only [Function.comp]
      split <;> rfl
    rw [hmapid]
    exact h1
  · exact h2.sublist (List.Sublist.map _ (List.filter_sublist _))
  · intro seat hseat
    exact h3 seat (List.mem_of_mem_filter hseat)
  · exact h4.sublist (List.Sublist.map _ (List.filter_sublist _))
  · intro r2 hr2
    exact h5 r2 (List.mem_of_mem_filter hr2)
  · exact h6.sublist (List.Sublist.map _ (List.filter_sublist _))
  · intro r2 hr2
    have hr2mem := List.mem_of_mem_filter hr2
    have hr2pred := List.of_mem_filter hr2
    have hr2ne : r2 ≠ r := by
      intro heq
      subst heq
      simp [hrid] at hr2pred
    have hsidne : r2.seat_id ≠ r.seat_id := by
      intro heq
      exact hr2ne (List.inj_on_of_nodup_map h6 hr2mem hrmem heq)
    obtain ⟨seat2, hs2mem, hs2id, hs2show⟩ := h7 r2 hr2mem
    refine ⟨seat2, List.mem_filter.mpr ⟨hs2mem, ?_⟩, hs2id, hs2show⟩
    simp only [Bool.not_eq_true', beq_eq_false_iff_ne, ne_eq]
    omega
  · intro st hst
    unfold occupancy
    dsimp only
    obtain ⟨orig, horig, rfl⟩ := List.mem_map.mp hst
    have hcnt := countP_filter_ne Seat.id r.seat_id
      (fun seat => seat.showtime_id == orig.id) s.seats h2 seat0 hseat0mem hseat0id
    have hbase := h8 orig horig
    unfold occupancy at hbase
    by_cases hc : (orig.id == r.showtime_id) = true
    · have horigid : orig.id = r.showtime_id := by simpa using hc
      have horig_eq : orig = strow :=
        List.inj_on_of_nodup_map h1 horig hstrow_mem
          (by rw [horigid, hstrow_id])
      rw [if_pos hc]
      have hp0 : ((fun seat => seat.showtime_id == orig.id) seat0) = true := by
        simp only [beq_iff_eq]
        omega
      rw [hp0] at hcnt
      simp only [if_true] at hcnt
      dsimp only
      rw [← horig_eq]
      omega
    · rw [if_neg hc]
      have hne : orig.id ≠ r.showtime_id := by simpa using hc
      have hp0 : ((fun seat => seat.showtime_id == orig.id) seat0) = false := by
        show (seat0.showtime_id == orig.id) = false
        refine beq_false_of_ne ?_
        omega
      rw [hp0] at hcnt
      simp only [Bool.false_eq_true, if_false] at hcnt
      omega

/-- Every `deleteReservation` run preserves the store invariant. -/
lemma dbInv_deleteReservation (s : DbState) (hb : Bool) (dec : Decoded)
    (ip : Bool) (rid : Int) (h : DbInv s) :
    DbInv (deleteReservation s hb dec ip rid).2 := by
  unfold deleteReservation
  by_cases htok : (!hb) = true
  · rw [if_pos htok]; exact h
  · rw [if_neg htok]
    cases dec with
    | throws => exact h
    | nonObject => exact h
    | payload uid role =>
      dsimp only
      by_cases hip : (!ip) = true
      · rw [if_pos hip]; exact h
      · rw [if_neg hip]
        cases hfind : s.reservations.find? (fun r2 => r2.id == rid) with
        | none => exact h
        | some r =>
          dsimp only
          by_cases howner : ((uid != r.user_id) = true)
          · rw [if_pos howner]; exact h
          · rw [if_neg howner]
            have hrmem : r ∈ s.reservations := List.mem_of_find?_eq_some hfind
            have hrid : r.id = rid := by simpa using List.find?_some hfind
            obtain ⟨_, h2, h3, h4, _, _, h7, _⟩ := h
            have hcnt1 := countP_filter_ne Reservation.id rid (fun _ => true)
              s.reservations h4 r hrmem hrid
            simp only [List.countP_true, if_true] at hcnt1
            have hc1 : ¬((s.reservations.length -
                (s.reservations.filter (fun r2 => !(r2.id == rid))).length == 0) = true) := by
              simp only [beq_iff_eq]
              omega
            rw [if_neg hc1]
            obtain ⟨seat0, hseat0mem, hseat0id, hseat0show⟩ := h7 r hrmem
            have hcnt2 := countP_filter_ne Seat.id r.seat_id (fun _ => true)
              s.seats h2 seat0 hseat0mem hseat0id
            simp only [List.countP_true, if_true] at hcnt2
            have hc2 : ¬((s.seats.length -
                (s.seats.filter (fun seat => !(seat.id == r.seat_id))).length == 0) = true) := by
              simp only [beq_iff_eq]
              omega
            rw [if_neg hc2]
            cases hsfind : s.showtimes.find? (fun st => st.id == r.showtime_id) with
            | none =>
              rw [List.find?_eq_none] at hsfind
              exact dbInv_deleteReservation_noUpdate s rid r
                ⟨‹_›, h2, h3, h4, ‹_›, ‹_›, h7, ‹_›⟩ hrmem hrid
                (fun st hst => by
                  have := hsfind st hst
                  simpa using this)
            | some strow =>
              dsimp only
              exact dbInv_deleteReservation_update s rid r strow
                ⟨‹_›, h2, h3, h4, ‹_›, ‹_›, h7, ‹_›⟩ hrmem hrid hsfind

/-- The `available_seats` column of the showtime row with the given id. -/
def availOf (s : DbState) (stid : Int) : Option Int :=
  (s.showtimes.find? (fun st => st.id == stid)).map Showtime.available_seats

/-- Characterisation of a successful `addReservation` run: the showtime
exists and the final state is the initial one plus the seat row, the
reservation row and the decremented counter. -/
lemma addReservation_ok_char (s : DbState) (hb : Bool) (dec : Decoded)
    (stid n now : Int)
    (hok : (addReservation s hb dec stid n now noFaults).1 = .ok .reservaHecha none) :
    ∃ strow uid sid,
      s.showtimes.find? (fun st => st.id == stid) = some strow ∧
      (addReservation s hb dec stid n now noFaults).2 = { s with
        showtimes := s.showtimes.map (fun st =>
          if st.id == stid then
            { st with available_seats := strow.available_seats - 1 }
          else st),
        seats := s.seats ++ [⟨s.nextSeatId, stid, n⟩],
        reservations := s.reservations ++
          [⟨s.nextReservationId, uid, stid, sid, now⟩],
        nextSeatId := s.nextSeatId + 1,
        nextReservationId := s.nextReservationId + 1 } := by
  revert hok
  unfold addReservation
  by_cases htok : (!hb) = true
  · rw [if_pos htok]; intro hok; exact Outcome.noConfusion hok
  · rw [if_neg htok]
    cases dec with
    | throws => intro hok; exact Outcome.noConfusion hok
    | nonObject => intro hok; exact Outcome.noConfusion hok
    | payload uid role =>
      dsimp only
      by_cases hrole : (role == "user") = true
      · rw [if_pos hrole]; intro hok; exact Outcome.noConfusion hok
      · rw [if_neg hrole]
        by_cases hfields : (stid == 0 || n == 0) = true
        · rw [if_pos hfields]; intro hok; exact Outcome.noConfusion hok
        · rw [if_neg hfields]
          by_cases hlen : ((s.showtimes.filter (fun st => st.id == stid)).length ≤ 0)
          · rw [if_pos hlen]; intro hok; exact Outcome.noConfusion hok
          · rw [if_neg hlen]
            cases hfind : s.showtimes.find? (fun st => st.id == stid) with
            | none => intro hok; exact Outcome.noConfusion hok
            | some strow =>
              dsimp only
              by_cases hcut : (strow.showtime_end + strow.showtime_init ≤ 2 * now)
              · rw [if_pos hcut]; intro hok; exact Outcome.noConfusion hok
              · rw [if_neg hcut]
                cases hsel : selectRoomIdRows s stid with
                | nil => intro hok; exact Outcome.noConfusion hok
                | cons row rest =>
                  dsimp only
                  by_cases hguard : (jsNumGt row.count 0 = true)
                  · rw [if_pos hguard]; intro hok; exact Outcome.noConfusion hok
                  · rw [if_neg hguard]
                    cases hroom : s.rooms.find? (fun r => r.id == row.room_id) with
                    | none => intro hok; exact Outcome.noConfusion hok
                    | some room =>
                      dsimp only
                      by_cases hrange : ((decide (n > room.capacity) || decide (n ≤ 0)) = true)
                      · rw [if_pos hrange]; intro hok; exact Outcome.noConfusion hok
                      · rw [if_neg hrange]
                        by_cases hocc : ((s.seats.filter (fun seat =>
                            seat.showtime_id == stid && seat.seat_number == n)).length > 0)
                        · rw [if_pos hocc]; intro hok; exact Outcome.noConfusion hok
                        · rw [if_neg hocc]
                          rw [if_neg (by decide : ¬(noFaults.seatInsertFails = true))]
                          have hnil : s.seats.filter (fun seat =>
                              seat.showtime_id == stid && seat.seat_number == n) = [] := by
                            rw [← List.length_eq_zero]
                            omega
                          have hnomatch : s.seats.find? (fun seat =>
                              seat.showtime_id == stid && seat.seat_number == n) = none := by
                            rw [List.find?_eq_none]
                            intro x hx
                            exact (List.filter_eq_nil_iff.mp hnil) x hx
                          have hfseat : (s.seats ++ [(⟨s.nextSeatId, stid, n⟩ : Seat)]).find?
                              (fun seat => seat.showtime_id == stid && seat.seat_number == n)
                              = some ⟨s.nextSeatId, stid, n⟩ := by
                            rw [List.find?_append, hnomatch]
                            simp
                          rw [hfseat]
                          dsimp only
                          rw [if_neg (by decide : ¬(noFaults.reservationInsertFails = true))]
                          intro _
                          exact ⟨strow, uid, s.nextSeatId, rfl, rfl⟩

/-- Characterisation of a successful `deleteReservation` run. -/
lemma deleteReservation_ok_char (s : DbState) (hb : Bool) (dec : Decoded)
    (ip : Bool) (rid : Int)
    (hok : (deleteReservation s hb dec ip rid).1 = .ok .reservaYAsientoEliminados none) :
    ∃ r strow,
      s.reservations.find? (fun r2 => r2.id == rid) = some r ∧
      s.showtimes.find? (fun st => st.id == r.showtime_id) = some strow ∧
      (deleteReservation s hb dec ip rid).2 = { s with
        showtimes := s.showtimes.map (fun st =>
          if st.id == r.showtime_id then
            { st with available_seats := strow.available_seats + 1 }
          else st),
        reservations := s.reservations.filter (fun r2 => !(r2.id == rid)),
        seats := s.seats.filter (fun seat => !(seat.id == r.seat_id)) } := by
  revert hok
  unfold deleteReservation
  by_cases htok : (!hb) = true
  · rw [if_pos htok]; intro hok; exact Outcome.noConfusion hok
  · rw [if_neg htok]
    cases dec with
    | throws => intro hok; exact Outcome.noConfusion hok
    | nonObject => intro hok; exact Outcome.noConfusion hok
    | payload uid role =>
      dsimp only
      by_cases hip : (!ip) = true
      · rw [if_pos hip]; intro hok; exact Outcome.noConfusion hok
      · rw [if_neg hip]
        cases hfind : s.reservations.find? (fun r2 => r2.id == rid) with
        | none => intro hok; exact Outcome.noConfusion hok
        | some r =>
          dsimp only
          by_cases howner : ((uid != r.user_id) = true)
          · rw [if_pos howner]; intro hok; exact Outcome.noConfusion hok
          · rw [if_neg howner]
            by_cases hres0 : ((s.reservations.length -
                (s.reservations.filter (fun r2 => !(r2.id == rid))).length == 0) = true)
            · rw [if_pos hres0]; intro hok; exact Outcome.noConfusion hok
            · rw [if_neg hres0]
              by_cases hseat0 : ((s.seats.length -
                  (s.seats.filter (fun seat => !(seat.id == r.seat_id))).length == 0) = true)
              · rw [if_pos hseat0]; intro hok; exact Outcome.noConfusion hok
              · rw [if_neg hseat0]
                cases hsfind : s.showtimes.find? (fun st => st.id == r.showtime_id) with
                | none => intro hok; exact Outcome.noConfusion hok
                | some strow =>
                  dsimp only
                  intro _
                  exact ⟨r, strow, rfl, hsfind, rfl⟩

/-- The store invariant is preserved by any sequence of reservation
manager requests. -/
lemma dbInv_runOps (ops : List Op) : ∀ (s : DbState), DbInv s → DbInv (runOps s ops) := by
  induction ops with
  | nil => intro s h; exact h
  | cons op rest ih =>
    intro s h
    cases op with
    | reserve a b c d e => exact ih _ (dbInv_addReservation s a b c d e h)
    | cancel a b c d => exact ih _ (dbInv_deleteReservation s a b c d h)

/-- A row lookup by id commutes with an id-preserving row update. -/
lemma find?_map_preserve_id (l : List Showtime) (stid : Int) (g : Showtime → Showtime)
    (hg : ∀ st, (g st).id = st.id) :
    (l.map g).find? (fun st => st.id == stid)
      = (l.find? (fun st => st.id == stid)).map g := by
  induction l with
  | nil => rfl
  | cons a t ih =>
    simp only [List.map_cons]
    by_cases h : ((a.id == stid) = true)
    · have hga : (((g a).id == stid) = true) := by rw [hg]; exact h
      have h1 : (g a :: t.map g).find? (fun st => st.id == stid) = some (g a) :=
        List.find?_cons_of_pos _ hga
      have h2 : (a :: t).find? (fun st => st.id == stid) = some a :=
        List.find?_cons_of_pos _ h
      rw [h1, h2]
      rfl
    · have hga : ¬(((g a).id == stid) = true) := by rw [hg]; exact h
      have h1 : (g a :: t.map g).find? (fun st => st.id == stid)
          = (t.map g).find? (fun st => st.id == stid) :=
        List.find?_cons_of_neg _ hga
      have h2 : (a :: t).find? (fun st => st.id == stid)
          = t.find? (fun st => st.id == stid) :=
        List.find?_cons_of_neg _ h
      rw [h1, h2, ih]

/-- Each successful `addReservation` decrements the reserved showtime's
`available_seats` by exactly 1. -/
lemma addReservation_ok_decrements (s : DbState) (hb : Bool) (dec : Decoded)
    (stid n now : Int)
    (hok : (addReservation s hb dec stid n now noFaults).1 = .ok .reservaHecha none) :
    availOf (addReservation s hb dec stid n now noFaults).2 stid
      = (availOf s stid).map (fun v => v - 1) := by
  obtain ⟨strow, uid, sid, hfind, hstate⟩ :=
    addReservation_ok_char s hb dec stid n now hok
  rw [hstate]
  unfold availOf
  rw [find?_map_preserve_id _ _ _ (fun st => by split <;> rfl), hfind]
  have hid := List.find?_some hfind
  simp only [Option.map_some']
  rw [if_pos hid]

/-- Each successful `deleteReservation` increments the showtime's
`available_seats` by exactly 1. -/
lemma deleteReservation_ok_increments (s : DbState) (hb : Bool) (dec : Decoded)
    (ip : Bool) (rid : Int) (r : Reservation)
    (hfind : s.reservations.find? (fun r2 => r2.id == rid) = some r)
    (hok : (deleteReservation s hb dec ip rid).1 = .ok .reservaYAsientoEliminados none) :
    availOf (deleteReservation s hb dec ip rid).2 r.showtime_id
      = (availOf s r.showtime_id).map (fun v => v + 1) := by
  obtain ⟨r2, strow, hfind2, hsfind, hstate⟩ :=
    deleteReservation_ok_char s hb dec ip rid hok
  rw [hfind] at hfind2
  obtain rfl : r = r2 := Option.some.inj hfind2
  rw [hstate]
  unfold availOf
  rw [find?_map_preserve_id _ _ _ (fun st => by split <;> rfl), hsfind]
  have hid := List.find?_some hsfind
  simp only [Option.map_some']
  rw [if_pos hid]

/-- Claim C1: starting from any well-formed store, after any sequence of
reserveSeat and cancelReservation requests every showtime satisfies
`availableSeats + (count of its Seat occupancy records) = totalSeats`;
moreover each successful reserveSeat decrements the showtime's
`availableSeats` by exactly 1 and each successful cancelReservation
increments it by exactly 1. -/
theorem capacity_conservation (s : DbState) (hinv : DbInv s) :
    (∀ ops : List Op, ∀ st ∈ (runOps s ops).showtimes,
        st.available_seats + (occupancy (runOps s ops) st.id : Int) = st.total_seats) ∧
    (∀ (hb : Bool) (dec : Decoded) (stid n now : Int),
        (addReservation s hb dec stid n now noFaults).1 = .ok .reservaHecha none →
        availOf (addReservation s hb dec stid n now noFaults).2 stid
          = (availOf s stid).map (fun v => v - 1)) ∧
    (∀ (hb : Bool) (dec : Decoded) (ip : Bool) (rid : Int) (r : Reservation),
        s.reservations.find? (fun r2 => r2.id == rid) = some r →
        (deleteReservation s hb dec ip rid).1 = .ok .reservaYAsientoEliminados none →
        availOf (deleteReservation s hb dec ip rid).2 r.showtime_id
          = (availOf s r.showtime_id).map (fun v => v + 1)) := by
  refine ⟨?_, ?_, ?_⟩
  · intro ops
    exact (dbInv_runOps ops s hinv).2.2.2.2.2.2.2
  · intro hb dec stid n now hok
    exact addReservation_ok_decrements s hb dec stid n now hok
  · intro hb dec ip rid r hfind hok
    exact deleteReservation_ok_increments s hb dec ip rid r hfind hok

/-- Witness for C1: a reserve-then-cancel sequence on `baseState`. -/
theorem capacity_conservation_witness :
    DbInv baseState ∧
    (∀ st ∈ (runOps baseState [.reserve true (.payload 7 "admin") 1 5 10,
        .cancel true (.payload 7 "admin") true 1]).showtimes,
      st.available_seats + (occupancy (runOps baseState
        [.reserve true (.payload 7 "admin") 1 5 10,
         .cancel true (.payload 7 "admin") true 1]) st.id : Int) = st.total_seats) :=
  ⟨by unfold DbInv; decide,
   (capacity_conservation baseState (by unfold DbInv; decide)).1
     [.reserve true (.payload 7 "admin") 1 5 10,
      .cancel true (.payload 7 "admin") true 1]⟩
